import Mathlib

/-!
Shallow embedding of `netlify/edge-functions/ai-stream.ts`, a single Netlify
edge function that relays chat requests to the OpenAI Responses API.

The handler is a pure request/response translation: CORS origin resolution,
an OPTIONS preflight short-circuit, JSON body parsing, payload transformation
into the upstream `input` shape, credential lookup, one upstream `fetch`, and
either an upstream-error JSON response or a streaming pass-through response.

Modelling conventions:
- `Option String` stands for a JavaScript value that is either a string or
  null/undefined; JS string truthiness (`!s`) is false exactly for the
  missing value and the empty string.
- The parsed request body is `Option Payload`: `none` is a JSON parse
  failure (the `catch` branch at lines 43-51), `some p` a parsed object with
  the two consumed fields `messages` (defaulting to `[]`) and `system`.
- The upstream `fetch` is an oracle passed to the handler: it either
  rejects (a network-level failure; the source has no try/catch around the
  `await fetch` at line 84, so a rejection escapes the handler) or resolves
  to an `Upstream` response.
- A body built with `JSON.stringify ({error: e})` or
  `JSON.stringify ({error: e, detail: d})` is represented structurally by
  `ResponseBody.jsonError e d`; a streamed body by its byte sequence.
-/

namespace AiStream

/-- One element of the inbound `messages` array (role and content strings). -/
structure Message where
  role : String
  content : String
deriving DecidableEq

/-- One element of a block's `content` array: `{ type, text }`. -/
structure ContentPart where
  type : String
  text : String
deriving DecidableEq

/-- One element of the upstream `input` array: `{ role, content: [...] }`. -/
structure Block where
  role : String
  content : List ContentPart
deriving DecidableEq

/-- The two fields the handler destructures from the parsed JSON body
(line 53: `const \x7b messages = [], system \x7d = payload`). -/
structure Payload where
  messages : List Message
  system : Option String
deriving DecidableEq

/-- The inbound HTTP request as the handler observes it: its method, its
`Origin` header (line 25), and the result of `await request.json()`
(`none` = the JSON parse threw). -/
structure RequestModel where
  method : String
  origin : Option String
  body : Option Payload
deriving DecidableEq

/-- Process-wide configuration: the parsed `ALLOW_ORIGINS` list (line 12)
and `Netlify.env.get ("OPENAI_API_KEY")` (line 72). -/
structure Config where
  ALLOW : List String
  apiKey : Option String
deriving DecidableEq

/-- The fixed upstream endpoint (line 10). -/
def OPENAI_URL : String := "https://api.openai.com/v1/responses"

/-- Lines 12-15: `ALLOW_ORIGINS` split on commas, trimmed, empty entries
dropped (`filter (Boolean)`). -/
def parseAllowOrigins (env : Option String) : List String :=
  (((env.getD "").splitOn ",").map String.trim).filter (fun s => s != "")

/-- Lines 17-21: resolve the `Access-Control-Allow-Origin` value. JS
`!origin` is true for null and for the empty string, so both yield `*`. -/
def corsOrigin (ALLOW : List String) (origin : Option String) : String :=
  match origin with
  | none => "*"
  | some o =>
    if o = "" then "*"
    else if ALLOW = [] then o
    else if o ∈ ALLOW then o else "null"

/-- JS truthiness of the optional `system` string (line 57 tests `system`). -/
def systemTruthy : Option String → Bool
  | none => false
  | some s => decide (s ≠ "")

/-- Lines 60-68: map one inbound message to an upstream block; assistant
messages use `output_text`, every other role uses `input_text`. -/
def mkBlock (m : Message) : Block :=
  let t := if m.role = "assistant" then "output_text" else "input_text"
  { role := m.role, content := [{ type := t, text := m.content }] }

/-- Lines 56-69: build the upstream `input` array — an optional leading
system block (when `system` is truthy) followed by the mapped messages. -/
def buildInput (system : Option String) (messages : List Message) : List Block :=
  (if systemTruthy system then
    [{ role := "system", content := [{ type := "input_text", text := system.getD "" }] }]
  else []) ++ messages.map mkBlock

/-- Line 73: `if (!apiKey)` — the key is missing when undefined or empty. -/
def keyMissing : Option String → Bool
  | none => true
  | some s => decide (s = "")

/-- The upstream `fetch` response: its numeric status, its body stream
(`none` = null body), and the result of `await upstream.text()`
(`none` = that secondary read rejects). -/
structure Upstream where
  status : Nat
  body : Option (List Nat)
  textResult : Option String
deriving DecidableEq

/-- `Response.ok` of the Fetch API: status in the range 200-299. -/
def Upstream.ok (u : Upstream) : Bool :=
  decide (200 ≤ u.status ∧ u.status < 300)

/-- The upstream call as an oracle: the promise either rejects (network
failure) or resolves to a response. -/
inductive FetchResult
  | rejects
  | resolves (u : Upstream)
deriving DecidableEq

/-- A response body: empty (`null`), a stringified JSON error object
`\x7b error, detail? \x7d`, or a forwarded byte stream. -/
inductive ResponseBody
  | empty
  | jsonError (error : String) (detail : Option String)
  | stream (bytes : List Nat)
deriving DecidableEq

/-- An HTTP response the handler returns: status, headers in construction
order, and body. -/
structure Response where
  status : Nat
  headers : List (String × String)
  body : ResponseBody
deriving DecidableEq

/-- What one handler invocation produces: either a returned response or an
uncaught fault escaping to the runtime. -/
inductive HandlerResult
  | response (r : Response)
  | fault
deriving DecidableEq

/-- The JSON body the handler POSTs upstream (lines 91-97), recorded so
that theorems can speak about whether and what the handler sent. -/
structure UpstreamRequest where
  url : String
  bearer : String
  model : String
  effort : String
  stream : Bool
  input : List Block
deriving DecidableEq

/-- The full observable outcome of one invocation: the result and the
upstream call, if one was issued. -/
structure Outcome where
  result : HandlerResult
  upstreamCall : Option UpstreamRequest
deriving DecidableEq

/-- Lines 24-122: the edge function itself. `fetchRes` is the behaviour of
the single upstream `fetch` for this request. The `await fetch` at line 84
is not wrapped in any try/catch, so a rejection becomes an uncaught fault. -/
def handler (cfg : Config) (req : RequestModel) (fetchRes : FetchResult) : Outcome :=
  let allowOrigin := corsOrigin cfg.ALLOW req.origin
  if req.method = "OPTIONS" then
    { result := .response
        { status := 204
          headers := [("Access-Control-Allow-Origin", allowOrigin),
                      ("Access-Control-Allow-Methods", "POST, OPTIONS"),
                      ("Access-Control-Allow-Headers", "Content-Type"),
                      ("Access-Control-Max-Age", "86400")]
          body := .empty }
      upstreamCall := none }
  else
    match req.body with
    | none =>
      { result := .response
          { status := 400
            headers := [("Content-Type", "application/json"),
                        ("Access-Control-Allow-Origin", allowOrigin)]
            body := .jsonError "Invalid JSON" none }
        upstreamCall := none }
    | some payload =>
      let input := buildInput payload.system payload.messages
      if keyMissing cfg.apiKey then
        { result := .response
            { status := 500
              headers := [("Content-Type", "application/json"),
                          ("Access-Control-Allow-Origin", allowOrigin)]
              body := .jsonError "Missing OPENAI_API_KEY" none }
          upstreamCall := none }
      else
        let call : UpstreamRequest :=
          { url := OPENAI_URL, bearer := cfg.apiKey.getD "", model := "gpt-5",
            effort := "low", stream := true, input := input }
        match fetchRes with
        | .rejects => { result := .fault, upstreamCall := some call }
        | .resolves u =>
          if u.ok = false ∨ u.body = none then
            { result := .response
                { status := if u.status = 0 then 502 else u.status
                  headers := [("Content-Type", "application/json"),
                              ("Access-Control-Allow-Origin", allowOrigin)]
                  body := .jsonError "OpenAI upstream error" (some (u.textResult.getD "")) }
              upstreamCall := some call }
          else
            { result := .response
                { status := 200
                  headers := [("Content-Type", "text/event-stream; charset=utf-8"),
                              ("Cache-Control", "no-cache, no-transform"),
                              ("Connection", "keep-alive"),
                              ("X-Accel-Buffering", "no"),
                              ("Access-Control-Allow-Origin", allowOrigin)]
                  body := .stream (u.body.getD []) }
              upstreamCall := some call }

/-- Spec-side description of one mapped message, written from the words of
the spec: assistant role yields an `output_text` content block, every other
role an `input_text` block, text carried through unchanged. -/
def specBlockOfMessage (m : Message) : Block :=
  { role := m.role
    content := [{ type := if m.role = "assistant" then "output_text" else "input_text"
                  text := m.content }] }

/-- Spec-side upstream input exactly as claim C2 states it: the system
block is prepended exactly when `system` is PRESENT. -/
def claimedUpstreamInput (system : Option String) (messages : List Message) : List Block :=
  (match system with
   | some s => [{ role := "system", content := [{ type := "input_text", text := s }] }]
   | none => []) ++ messages.map specBlockOfMessage

/-- Spec-side upstream input as amended: the system block is prepended
exactly when `system` is present AND non-empty. -/
def specUpstreamInput (system : Option String) (messages : List Message) : List Block :=
  (match system with
   | some s =>
     if s = "" then []
     else [{ role := "system", content := [{ type := "input_text", text := s }] }]
   | none => []) ++ messages.map specBlockOfMessage

/-- C1: the claim says the handler never lets an error propagate as an
unhandled fault — in particular a network-level failure of the upstream
fetch is caught and converted to a structured JSON error response. The code
has no try/catch around the `await fetch` (line 84): at this concrete
request, whose upstream fetch rejects, the handler's outcome is an uncaught
fault, not a response. -/
theorem C1_fetch_rejection_uncaught :
    (handler { ALLOW := [], apiKey := some "k" }
      { method := "POST", origin := some "https://app.example"
        body := some { messages := [{ role := "user", content := "hi" }], system := none } }
      .rejects).result = .fault := by
  rfl

/-- C2 counterexample: with `system` present but equal to the empty string,
the produced upstream input has no system block, so it differs from what
the claim as stated (system block prepended exactly when `system` is
present) prescribes at this concrete input. -/
theorem C2_counterexample :
    buildInput (some "") [{ role := "user", content := "hi" }] ≠
      claimedUpstreamInput (some "") [{ role := "user", content := "hi" }] := by
  decide

/-- C2 (amended): for every well-formed body the produced upstream input
preserves the order of `messages`, prepends a single system block first
exactly when `system` is present and non-empty, maps assistant-role
messages to `output_text` blocks and every other role to `input_text`,
and carries the text content through unchanged. -/
theorem C2_input_refines_spec (system : Option String) (messages : List Message) :
    buildInput system messages = specUpstreamInput system messages := by
  have hmap : messages.map mkBlock = messages.map specBlockOfMessage :=
    List.map_congr_left fun m _ => rfl
  cases system with
  | none => simpa [buildInput, specUpstreamInput, systemTruthy] using hmap
  | some s =>
    by_cases hs : s = "" <;>
      simp [buildInput, specUpstreamInput, systemTruthy, hs, hmap]

/-- C3 counterexample: a request whose `Origin` header is present but
empty, with an empty allow-list: the claim says the incoming origin is
reflected verbatim, but the code returns `*` (JS `!origin` is true for the
empty string). -/
theorem C3_counterexample : corsOrigin [] (some "") ≠ "" := by
  decide

/-- C3 (amended): the resolved `Access-Control-Allow-Origin` value is `*`
when the request has no `Origin` header or that header is empty; for a
non-empty incoming origin it is the origin verbatim when the allow-list is
empty, the origin when it is a member of the allow-list, and the literal
string `null` otherwise. -/
theorem C3_corsOrigin_cases (ALLOW : List String) (o : String) (h : o ≠ "") :
    corsOrigin ALLOW none = "*" ∧
    corsOrigin ALLOW (some "") = "*" ∧
    corsOrigin ALLOW (some o) =
      (if ALLOW = [] then o else if o ∈ ALLOW then o else "null") := by
  refine ⟨rfl, by simp [corsOrigin], ?_⟩
  simp [corsOrigin, h]

/-- C3 witness: the amended cases evaluated at a concrete allow-list and
origin. -/
theorem C3_corsOrigin_cases_witness :
    corsOrigin ["https://a.example"] none = "*" ∧
    corsOrigin ["https://a.example"] (some "") = "*" ∧
    corsOrigin ["https://a.example"] (some "https://b.example") =
      (if (["https://a.example"] : List String) = [] then "https://b.example"
       else if "https://b.example" ∈ ["https://a.example"] then "https://b.example"
       else "null") :=
  C3_corsOrigin_cases ["https://a.example"] "https://b.example" (by decide)

/-- C9: a body whose `system` field is the empty string (the falsy string
value) produces an upstream input with no prepended system block, equal to
the input produced when `system` is entirely absent. -/
theorem C9_falsy_system_ignored (messages : List Message) :
    buildInput (some "") messages = buildInput none messages ∧
    buildInput (some "") messages = messages.map mkBlock :=
  ⟨rfl, rfl⟩

/-- C4: when the upstream response is not successful or carries no body,
the handler responds with the upstream status (502 when the upstream
provided status 0), content-type `application/json`, the allow-origin
header, and JSON body with error `OpenAI upstream error` and the
best-effort upstream text as detail (empty string when that secondary read
rejects). -/
theorem C4_upstream_error (cfg : Config) (req : RequestModel) (p : Payload) (u : Upstream)
    (hm : req.method ≠ "OPTIONS") (hb : req.body = some p)
    (hk : keyMissing cfg.apiKey = false)
    (he : u.ok = false ∨ u.body = none) :
    (handler cfg req (.resolves u)).result = .response
      { status := if u.status = 0 then 502 else u.status
        headers := [("Content-Type", "application/json"),
                    ("Access-Control-Allow-Origin", corsOrigin cfg.ALLOW req.origin)]
        body := .jsonError "OpenAI upstream error" (some (u.textResult.getD "")) } := by
  rcases he with h | h <;> simp [handler, hm, hb, hk, h]

/-- C4 witness: a concrete non-OPTIONS request with a parsed body, a
present key, and an upstream 500 with no body. -/
theorem C4_upstream_error_witness :
    (handler { ALLOW := [], apiKey := some "k" }
      { method := "POST", origin := none, body := some { messages := [], system := none } }
      (.resolves { status := 500, body := none, textResult := some "boom" })).result =
      .response
        { status := if (500 : Nat) = 0 then 502 else 500
          headers := [("Content-Type", "application/json"),
                      ("Access-Control-Allow-Origin", corsOrigin [] none)]
          body := .jsonError "OpenAI upstream error" (some ((some "boom").getD "")) } :=
  C4_upstream_error { ALLOW := [], apiKey := some "k" }
    { method := "POST", origin := none, body := some { messages := [], system := none } }
    { messages := [], system := none }
    { status := 500, body := none, textResult := some "boom" }
    (by decide) rfl (by decide) (Or.inl (by decide))

/-- C5: when the upstream response is successful and has a body stream, the
handler responds with status 200, the five headers (event-stream
content-type, no-cache, keep-alive, the buffering-off directive, and the
allow-origin value), and a body equal to the upstream body bytes exactly. -/
theorem C5_stream_pass_through (cfg : Config) (req : RequestModel) (p : Payload)
    (u : Upstream) (bytes : List Nat)
    (hm : req.method ≠ "OPTIONS") (hb : req.body = some p)
    (hk : keyMissing cfg.apiKey = false)
    (hok : u.ok = true) (hbody : u.body = some bytes) :
    (handler cfg req (.resolves u)).result = .response
      { status := 200
        headers := [("Content-Type", "text/event-stream; charset=utf-8"),
                    ("Cache-Control", "no-cache, no-transform"),
                    ("Connection", "keep-alive"),
                    ("X-Accel-Buffering", "no"),
                    ("Access-Control-Allow-Origin", corsOrigin cfg.ALLOW req.origin)]
        body := .stream bytes } := by
  simp [handler, hm, hb, hk, hok, hbody]

/-- C5 witness: a concrete upstream 200 whose bytes come straight through. -/
theorem C5_stream_pass_through_witness :
    (handler { ALLOW := [], apiKey := some "k" }
      { method := "POST", origin := some "https://app.example"
        body := some { messages := [], system := none } }
      (.resolves { status := 200, body := some [100, 97, 116, 97], textResult := none })).result =
      .response
        { status := 200
          headers := [("Content-Type", "text/event-stream; charset=utf-8"),
                      ("Cache-Control", "no-cache, no-transform"),
                      ("Connection", "keep-alive"),
                      ("X-Accel-Buffering", "no"),
                      ("Access-Control-Allow-Origin", corsOrigin [] (some "https://app.example"))]
          body := .stream [100, 97, 116, 97] } :=
  C5_stream_pass_through { ALLOW := [], apiKey := some "k" }
    { method := "POST", origin := some "https://app.example"
      body := some { messages := [], system := none } }
    { messages := [], system := none }
    { status := 200, body := some [100, 97, 116, 97], textResult := none }
    [100, 97, 116, 97]
    (by decide) rfl (by decide) (by decide) rfl

/-- C6: every response the handler returns — preflight, 400 parse error,
500 configuration error, upstream-error response, and streaming success —
carries the resolved allow-origin header for that request. -/
theorem C6_allow_origin_everywhere (cfg : Config) (req : RequestModel)
    (f : FetchResult) (r : Response)
    (h : (handler cfg req f).result = .response r) :
    ("Access-Control-Allow-Origin", corsOrigin cfg.ALLOW req.origin) ∈ r.headers := by
  unfold handler at h
  split at h
  · cases h; simp
  · split at h
    · cases h; simp
    · split at h
      · cases h; simp
      · split at h
        · cases h
        · split at h
          · cases h; simp
          · cases h; simp

/-- C6 witness: the preflight response at a concrete request carries the
resolved allow-origin header. -/
theorem C6_allow_origin_everywhere_witness :
    ("Access-Control-Allow-Origin", corsOrigin [] none) ∈
      (Response.mk 204
        [("Access-Control-Allow-Origin", "*"),
         ("Access-Control-Allow-Methods", "POST, OPTIONS"),
         ("Access-Control-Allow-Headers", "Content-Type"),
         ("Access-Control-Max-Age", "86400")] .empty).headers :=
  C6_allow_origin_everywhere { ALLOW := [], apiKey := none }
    { method := "OPTIONS", origin := none, body := none } .rejects
    (Response.mk 204
      [("Access-Control-Allow-Origin", "*"),
       ("Access-Control-Allow-Methods", "POST, OPTIONS"),
       ("Access-Control-Allow-Headers", "Content-Type"),
       ("Access-Control-Max-Age", "86400")] .empty)
    (by decide)

/-- C7: a non-OPTIONS request whose body fails to parse as JSON gets
status 400, JSON body with error `Invalid JSON`, content-type
`application/json`, and the allow-origin header; no upstream call is made. -/
theorem C7_invalid_json (cfg : Config) (req : RequestModel) (f : FetchResult)
    (hm : req.method ≠ "OPTIONS") (hb : req.body = none) :
    handler cfg req f =
      { result := .response
          { status := 400
            headers := [("Content-Type", "application/json"),
                        ("Access-Control-Allow-Origin", corsOrigin cfg.ALLOW req.origin)]
            body := .jsonError "Invalid JSON" none }
        upstreamCall := none } := by
  simp [handler, hm, hb]

/-- C7 witness: a concrete POST with an unparseable body. -/
theorem C7_invalid_json_witness :
    handler { ALLOW := ["https://a.example"], apiKey := some "k" }
      { method := "POST", origin := some "https://a.example", body := none } .rejects =
      { result := .response
          { status := 400
            headers := [("Content-Type", "application/json"),
                        ("Access-Control-Allow-Origin",
                          corsOrigin ["https://a.example"] (some "https://a.example"))]
            body := .jsonError "Invalid JSON" none }
        upstreamCall := none } :=
  C7_invalid_json { ALLOW := ["https://a.example"], apiKey := some "k" }
    { method := "POST", origin := some "https://a.example", body := none } .rejects
    (by decide) rfl

/-- C8: a non-OPTIONS request with a well-formed body, when
`OPENAI_API_KEY` is absent, gets status 500, JSON body with error
`Missing OPENAI_API_KEY`, content-type `application/json`, and the
allow-origin header, and no upstream call is issued. -/
theorem C8_missing_key (cfg : Config) (req : RequestModel) (p : Payload) (f : FetchResult)
    (hm : req.method ≠ "OPTIONS") (hb : req.body = some p)
    (hk : cfg.apiKey = none) :
    handler cfg req f =
      { result := .response
          { status := 500
            headers := [("Content-Type", "application/json"),
                        ("Access-Control-Allow-Origin", corsOrigin cfg.ALLOW req.origin)]
            body := .jsonError "Missing OPENAI_API_KEY" none }
        upstreamCall := none } := by
  simp [handler, hm, hb, hk, keyMissing]

/-- C8 witness: a concrete POST with a parsed body and no configured key. -/
theorem C8_missing_key_witness :
    handler { ALLOW := [], apiKey := none }
      { method := "POST", origin := none
        body := some { messages := [{ role := "user", content := "hi" }], system := none } }
      .rejects =
      { result := .response
          { status := 500
            headers := [("Content-Type", "application/json"),
                        ("Access-Control-Allow-Origin", corsOrigin [] none)]
            body := .jsonError "Missing OPENAI_API_KEY" none }
        upstreamCall := none } :=
  C8_missing_key { ALLOW := [], apiKey := none }
    { method := "POST", origin := none
      body := some { messages := [{ role := "user", content := "hi" }], system := none } }
    { messages := [{ role := "user", content := "hi" }], system := none } .rejects
    (by decide) rfl rfl

/-- C10: any request whose method is not OPTIONS is processed exactly as a
POST with the same origin and body: the method influences the outcome only
through whether it equals OPTIONS. -/
theorem C10_method_irrelevant (cfg : Config) (origin : Option String)
    (body : Option Payload) (f : FetchResult) (m : String)
    (hm : m ≠ "OPTIONS") :
    handler cfg { method := m, origin := origin, body := body } f =
      handler cfg { method := "POST", origin := origin, body := body } f := by
  simp only [handler]
  rw [if_neg (by simpa using hm), if_neg (by decide)]

/-- C10 witness: a concrete DELETE request yields the same outcome as the
same request sent as POST. -/
theorem C10_method_irrelevant_witness :
    handler { ALLOW := [], apiKey := none }
      { method := "DELETE", origin := none, body := none } .rejects =
      handler { ALLOW := [], apiKey := none }
        { method := "POST", origin := none, body := none } .rejects :=
  C10_method_irrelevant { ALLOW := [], apiKey := none } none none .rejects "DELETE"
    (by decide)

end AiStream
